import Mathlib

/-!
Verification of the simple metrics server (`sample_app/simple_metrics_server.py`).

The server builds Prometheus exposition text as a list of metric blocks, each
block being a `# HELP` line, a `# TYPE` line and one or more sample lines.  We
embed the generator and the route handlers structurally: a response is the list
of blocks it emits, a sample carries its label pairs, its numeric value and the
timestamp appended to the line.  Random draws (`random.uniform`, `random.randint`)
are modelled as explicit inputs threaded through a `Draws` record: the generator
consumes one fresh draw per sample, and the per-metric-entry draws are indexed by
the entry's position.  Python string helpers (`str.split`, `str.strip`,
`str.lower`, the `in` operator) are embedded as structurally recursive functions
on the character list of the string, matching Python semantics on the ASCII
inputs the server handles.
-/

namespace MetricsServer

/-- Python truthiness of an optional string: `None` and `""` are falsy. -/
def truthy : Option String → Bool
  | none => false
  | some s => !s.isEmpty

/-- Python f-string interpolation of an optional string: `None` prints as "None". -/
def pyStr : Option String → String
  | none => "None"
  | some s => s

/-- Python `x or default` on an optional string: falsy values fall to the default. -/
def pyOrElse : Option String → String → String
  | none, d => d
  | some s, d => if s.isEmpty then d else s

/-- Python f-string interpolation of a bool: `True` / `False`. -/
def pyBoolStr (b : Bool) : String := if b then "True" else "False"

/-- Whether `pat` occurs as a contiguous run inside `l` (Python's `in` on strings). -/
def listContains (pat : List Char) : List Char → Bool
  | [] => pat.isEmpty
  | c :: cs => pat.isPrefixOf (c :: cs) || listContains pat cs

/-- Python `pat in s` substring test. -/
def strContains (s pat : String) : Bool := listContains pat.data s.data

/-- Python `s.lower()` (ASCII model). -/
def lowerStr (s : String) : String := ⟨s.data.map Char.toLower⟩

/-- Python `s.startswith(pre)`. -/
def strStartsWith (s pre : String) : Bool := pre.data.isPrefixOf s.data

/-- Python `s.strip()`: drop whitespace at both ends. -/
def pyStrip (s : String) : String :=
  ⟨(((s.data.dropWhile Char.isWhitespace).reverse.dropWhile Char.isWhitespace)).reverse⟩

/-- Helper for `pySplit`: accumulates the current field in reverse. -/
def pySplitAux (sep : Char) : List Char → List Char → List String
  | [], acc => [⟨acc.reverse⟩]
  | c :: cs, acc =>
    if c = sep then ⟨acc.reverse⟩ :: pySplitAux sep cs [] else pySplitAux sep cs (c :: acc)

/-- Python `s.split(sep)` for a one-character separator: no field is ever dropped,
so `"a,".split(",") = ["a", ""]` and `",".split(",") = ["", ""]`. -/
def pySplit (s : String) (sep : Char) : List String := pySplitAux sep s.data []

/-- A sample value: an integer sample, or a real sample printed with the given
number of decimal places. -/
inductive Value where
  | int : ℤ → Value
  | dec : ℚ → ℕ → Value
  deriving DecidableEq

/-- One sample line: label pairs in output order, the value, and the trailing
Unix timestamp. -/
structure Sample where
  labels : List (String × String)
  value : Value
  ts : ℤ
  deriving DecidableEq

/-- One metric block: `# HELP name help`, `# TYPE name mtype`, then samples. -/
structure MetricBlock where
  name : String
  help : String
  mtype : String
  samples : List Sample
  deriving DecidableEq

/-- The random draws consumed by one generator call.  `metricQ`/`metricZ` give
the fresh draw consumed by the metric entry at a given position in the split
list (each loop iteration makes exactly one `random` call). -/
structure Draws where
  cpuQ : ℚ
  memZ : ℤ
  g200 : ℤ
  p200 : ℤ
  g404 : ℤ
  metricQ : ℕ → ℚ
  metricZ : ℕ → ℤ
  durQ : ℚ

/-- Resource-type classification of `target` (lines 70-76 of the source):
first match wins, fallback `"unknown"`. -/
def resource_type (target : String) : String :=
  if strContains target "Microsoft.Sql/managedInstances" then "sql_managed_instance"
  else if strContains target "Microsoft.Compute/virtualMachines" then "virtual_machine"
  else if strContains target "Microsoft.Storage/storageAccounts" then "storage_account"
  else "unknown"

/-- Label set `{subscription, resource_type, aggregation, interval}` used by the
three exact-match azure sql metrics. -/
def azureLabels (subscription rt aggregation interval : String) : List (String × String) :=
  [("subscription", subscription), ("resource_type", rt),
   ("aggregation", aggregation), ("interval", interval)]

/-- Label set with the extra `metric_name` label used by the vm-cpu and
unknown-metric blocks. -/
def azureNameLabels (subscription rt metric_name aggregation interval : String) :
    List (String × String) :=
  [("subscription", subscription), ("resource_type", rt), ("metric_name", metric_name),
   ("aggregation", aggregation), ("interval", interval)]

/-- Body of the per-entry match (lines 84-120 of the source) on the
already-stripped metric name, matched against the ordered rules.  `dq`/`dz` are
the fresh random draws available to this loop iteration. -/
def metricEntryBlockCore (subscription rt aggregation interval : String) (ts : ℤ)
    (dq : ℚ) (dz : ℤ) (metric_name : String) : MetricBlock :=
  if metric_name = "avg_cpu_percent" then
    { name := "azure_sql_avg_cpu_percent",
      help := "Average CPU percentage from Azure API", mtype := "gauge",
      samples := [⟨azureLabels subscription rt aggregation interval, .dec dq 2, ts⟩] }
  else if metric_name = "virtual_core_count" then
    { name := "azure_sql_virtual_core_count",
      help := "Virtual core count from Azure API", mtype := "gauge",
      samples := [⟨azureLabels subscription rt aggregation interval, .int dz, ts⟩] }
  else if metric_name = "memory_usage_percent" then
    { name := "azure_sql_memory_usage_percent",
      help := "Memory usage percentage from Azure API", mtype := "gauge",
      samples := [⟨azureLabels subscription rt aggregation interval, .dec dq 2, ts⟩] }
  else if strContains metric_name "CPU" || strContains (lowerStr metric_name) "cpu" then
    { name := "azure_vm_cpu_percent",
      help := metric_name ++ " from Azure API", mtype := "gauge",
      samples := [⟨azureNameLabels subscription rt metric_name aggregation interval,
                   .dec dq 2, ts⟩] }
  else
    { name := "azure_unknown_metric",
      help := "Unknown metric " ++ metric_name ++ " from Azure API", mtype := "gauge",
      samples := [⟨azureNameLabels subscription rt metric_name aggregation interval,
                   .dec dq 2, ts⟩] }

/-- The block emitted for one comma-separated metric entry (lines 81-120 of the
source): the entry is stripped (`metric_name = metric_name.strip()`), then the
ordered rules apply. -/
def metricEntryBlock (subscription rt aggregation interval : String) (ts : ℤ)
    (dq : ℚ) (dz : ℤ) (entry : String) : MetricBlock :=
  metricEntryBlockCore subscription rt aggregation interval ts dq dz (pyStrip entry)

/-- The per-entry loop (lines 81-120): one block per entry, in input order; the
iteration at position `k` consumes the draws at index `k`. -/
def azureEntryBlocks (subscription rt aggregation interval : String) (ts : ℤ)
    (rq : ℕ → ℚ) (rz : ℕ → ℤ) : ℕ → List String → List MetricBlock
  | _, [] => []
  | k, e :: es =>
    metricEntryBlock subscription rt aggregation interval ts (rq k) (rz k) e ::
      azureEntryBlocks subscription rt aggregation interval ts rq rz (k + 1) es

/-- The baseline blocks emitted unconditionally (lines 38-65): `up`,
`server_start_time`, `system_cpu_usage`, `system_memory_used_bytes`,
`http_requests_total`. -/
def baselineBlocks (server_start_time ts : ℤ) (r : Draws) : List MetricBlock :=
  [ { name := "up", help := "Server status (1=up, 0=down)", mtype := "gauge",
      samples := [⟨[], .int 1, ts⟩] },
    { name := "server_start_time", help := "Server start timestamp", mtype := "gauge",
      samples := [⟨[], .int server_start_time, ts⟩] },
    { name := "system_cpu_usage", help := "CPU usage percentage", mtype := "gauge",
      samples := [⟨[], .dec r.cpuQ 2, ts⟩] },
    { name := "system_memory_used_bytes", help := "Memory usage in bytes", mtype := "gauge",
      samples := [⟨[], .int r.memZ, ts⟩] },
    { name := "http_requests_total", help := "HTTP requests counter", mtype := "counter",
      samples := [⟨[("method", "GET"), ("status", "200")], .int r.g200, ts⟩,
                  ⟨[("method", "POST"), ("status", "200")], .int r.p200, ts⟩,
                  ⟨[("method", "GET"), ("status", "404")], .int r.g404, ts⟩] } ]

/-- The two trailing exporter-metadata blocks (lines 122-132), labelled only by
`subscription`. -/
def exporterMetaBlocks (subscription : String) (ts : ℤ) (r : Draws) : List MetricBlock :=
  [ { name := "azure_exporter_scrape_duration_seconds",
      help := "Time spent scraping Azure API", mtype := "gauge",
      samples := [⟨[("subscription", subscription)], .dec r.durQ 3, ts⟩] },
    { name := "azure_exporter_scrape_success",
      help := "Whether the Azure API scrape was successful", mtype := "gauge",
      samples := [⟨[("subscription", subscription)], .int 1, ts⟩] } ]

/-- `generate_prometheus_metrics` (lines 27-134): baseline blocks always; the
azure section only when subscription, target and metric are all truthy. -/
def generate_prometheus_metrics
    (subscription target metric interval aggregation : Option String)
    (server_start_time ts : ℤ) (r : Draws) : List MetricBlock :=
  baselineBlocks server_start_time ts r ++
    (if truthy subscription && truthy target && truthy metric then
      azureEntryBlocks (pyStr subscription) (resource_type (pyStr target))
          (pyStr aggregation) (pyStr interval) ts r.metricQ r.metricZ 0
          (pySplit (pyStr metric) ',') ++
        exporterMetaBlocks (pyStr subscription) ts r
    else [])

/-- The `/metrics` handler (lines 158-161): the generator with no parameters,
returned with the default HTTP status 200. -/
def metrics (server_start_time ts : ℤ) (r : Draws) : ℕ × List MetricBlock :=
  (200, generate_prometheus_metrics none none none none none server_start_time ts r)

/-- The fixed error payload of `/probe/metrics/resource` (lines 184-191) when a
required parameter is missing.  `interval` and `aggregation` are the
route-level (already defaulted) values. -/
def errorBlocks (subscription target metric : Option String)
    (interval aggregation : String) (error_timestamp : ℤ) : List MetricBlock :=
  [ { name := "azure_exporter_error", help := "Error in Azure exporter", mtype := "gauge",
      samples := [⟨[("reason", "missing_required_parameters"),
                    ("subscription", pyOrElse subscription "missing"),
                    ("target_provided", pyBoolStr (truthy target)),
                    ("metric_provided", pyBoolStr (truthy metric))], .int 1, error_timestamp⟩] },
    { name := "azure_exporter_request_info", help := "Information about the request",
      mtype := "gauge",
      samples := [⟨[("subscription", pyOrElse subscription "none"),
                    ("has_target", pyBoolStr (truthy target)),
                    ("has_metric", pyBoolStr (truthy metric)),
                    ("interval", interval),
                    ("aggregation", aggregation)], .int 0, error_timestamp⟩] } ]

/-- The `/probe/metrics/resource` handler (lines 163-194).  Query parameters are
`none` when absent; `interval` defaults to "PT1M" and `aggregation` to
"average".  The source guard `if not subscription or not target or not metric`
is written here as its De Morgan equivalent.  The handler never raises, so the
status is always the FastAPI default 200. -/
def azure_metrics (subscription target metric qinterval qaggregation : Option String)
    (name metricNamespace : Option String) (server_start_time ts : ℤ) (r : Draws) :
    ℕ × List MetricBlock :=
  let interval := qinterval.getD "PT1M"
  let aggregation := qaggregation.getD "average"
  if truthy subscription && truthy target && truthy metric then
    (200, generate_prometheus_metrics subscription target metric
            (some interval) (some aggregation) server_start_time ts r)
  else
    (200, errorBlocks subscription target metric interval aggregation ts)

/-- The JSON object returned by `/debug/params` (lines 196-216). -/
structure DebugParamsResult where
  subscription : Option String
  target : Option String
  metric : Option String
  interval : Option String
  aggregation : Option String
  parameter_count : ℕ
  required_params_present : Bool
  timestamp : ℤ
  deriving DecidableEq

/-- The `/debug/params` handler: `parameter_count` counts parameters that are
not `None` (Python `p is not None`), while `required_params_present` uses
truthiness (`all([subscription, target, metric])`). -/
def debug_params (subscription target metric interval aggregation : Option String)
    (ts : ℤ) : DebugParamsResult :=
  { subscription := subscription, target := target, metric := metric,
    interval := interval, aggregation := aggregation,
    parameter_count :=
      ([subscription, target, metric, interval, aggregation].filter Option.isSome).length,
    required_params_present := truthy subscription && truthy target && truthy metric,
    timestamp := ts }

/-- Spec-side count of the parameters supplied as non-empty strings. -/
def countNonEmpty (ps : List (Option String)) : ℕ := ps.countP truthy

/-- Spec-side count of the parameters that are present at all. -/
def countPresent (ps : List (Option String)) : ℕ := ps.countP Option.isSome

/-- The structural shape of a block: its metric name, help text, type and the
label sets of its samples, with values and timestamps erased. -/
def shapeOf (b : MetricBlock) : String × String × String × List (List (String × String)) :=
  (b.name, b.help, b.mtype, b.samples.map Sample.labels)

/-- The ordered classification rules as the spec states them, on a stripped
entry `t`: try the three exact matches in order, then case-insensitive "cpu"
containment, else the unknown-metric fallback. -/
def specEntryShapeCore (subscription rt aggregation interval : String) (t : String) :
    String × String × String × List (List (String × String)) :=
  if t = "avg_cpu_percent" then
    ("azure_sql_avg_cpu_percent", "Average CPU percentage from Azure API", "gauge",
     [azureLabels subscription rt aggregation interval])
  else if t = "virtual_core_count" then
    ("azure_sql_virtual_core_count", "Virtual core count from Azure API", "gauge",
     [azureLabels subscription rt aggregation interval])
  else if t = "memory_usage_percent" then
    ("azure_sql_memory_usage_percent", "Memory usage percentage from Azure API", "gauge",
     [azureLabels subscription rt aggregation interval])
  else if strContains (lowerStr t) "cpu" then
    ("azure_vm_cpu_percent", t ++ " from Azure API", "gauge",
     [azureNameLabels subscription rt t aggregation interval])
  else
    ("azure_unknown_metric", "Unknown metric " ++ t ++ " from Azure API", "gauge",
     [azureNameLabels subscription rt t aggregation interval])

/-- Spec-side shape of the block produced for one raw metric entry: strip, then
apply the ordered rules. -/
def specEntryShape (subscription rt aggregation interval : String) (e : String) :
    String × String × String × List (List (String × String)) :=
  specEntryShapeCore subscription rt aggregation interval (pyStrip e)

/-- A concrete draw record used to instantiate theorems at concrete inputs. -/
def someDraws : Draws :=
  { cpuQ := 0, memZ := 0, g200 := 0, p200 := 0, g404 := 0,
    metricQ := fun _ => 0, metricZ := fun _ => 0, durQ := 0 }

/-! Helper lemmas. -/

/-- Mapping a function over both lists preserves the boolean list-level run test
at the level of `isPrefixOf`. -/
lemma isPrefixOf_map_toLower :
    ∀ p l : List Char, p.isPrefixOf l = true →
      (p.map Char.toLower).isPrefixOf (l.map Char.toLower) = true := by
  intro p
  induction p with
  | nil => intro l _; simp [List.isPrefixOf]
  | cons a as ih =>
    intro l h
    cases l with
    | nil => simp [List.isPrefixOf] at h
    | cons b bs =>
      simp only [List.isPrefixOf, Bool.and_eq_true, beq_iff_eq] at h
      simp only [List.map_cons, List.isPrefixOf, Bool.and_eq_true, beq_iff_eq]
      exact ⟨by rw [h.1], ih bs h.2⟩

/-- Substring containment is preserved by lowercasing both sides. -/
lemma listContains_map_toLower :
    ∀ l pat : List Char, listContains pat l = true →
      listContains (pat.map Char.toLower) (l.map Char.toLower) = true := by
  intro l
  induction l with
  | nil =>
    intro pat h
    simp only [listContains, List.isEmpty_iff] at h ⊢
    simp [h]
  | cons c cs ih =>
    intro pat h
    simp only [listContains, Bool.or_eq_true] at h
    rcases h with h | h
    · have := isPrefixOf_map_toLower pat (c :: cs) h
      simp only [List.map_cons] at this
      simp [listContains, this]
    · simp [listContains, ih pat h]

/-- If a string contains `"CPU"` then its lowercase form contains `"cpu"`. -/
lemma strContains_lower_cpu (s : String) (h : strContains s "CPU" = true) :
    strContains (lowerStr s) "cpu" = true := by
  have := listContains_map_toLower s.data "CPU".data h
  simpa [strContains, lowerStr] using this

/-- The code's cpu condition `"CPU" in name or "cpu" in name.lower()` equals the
plain case-insensitive test `"cpu" in name.lower()`. -/
lemma cpu_cond_eq (t : String) :
    (strContains t "CPU" || strContains (lowerStr t) "cpu")
      = strContains (lowerStr t) "cpu" := by
  cases hc : strContains (lowerStr t) "cpu" with
  | true => simp [hc]
  | false =>
    cases hC : strContains t "CPU" with
    | true => exact absurd (strContains_lower_cpu t hC) (by simp [hc])
    | false => simp [hc, hC]

/-- The shape of the code's per-entry match agrees with the spec-side ordered
classification rules on the stripped name. -/
lemma shapeOf_metricEntryBlockCore (s rt a i : String) (ts : ℤ) (dq : ℚ) (dz : ℤ)
    (t : String) :
    shapeOf (metricEntryBlockCore s rt a i ts dq dz t)
      = specEntryShapeCore s rt a i t := by
  unfold metricEntryBlockCore specEntryShapeCore
  rw [cpu_cond_eq]
  split
  · rfl
  · split
    · rfl
    · split
      · rfl
      · split
        · rfl
        · rfl

/-- The shape of the block emitted for one raw entry agrees with the spec-side
rules. -/
lemma shapeOf_metricEntryBlock (s rt a i : String) (ts : ℤ) (dq : ℚ) (dz : ℤ)
    (e : String) :
    shapeOf (metricEntryBlock s rt a i ts dq dz e) = specEntryShape s rt a i e :=
  shapeOf_metricEntryBlockCore s rt a i ts dq dz (pyStrip e)

/-- The entry loop emits one block per entry. -/
lemma azureEntryBlocks_length (s rt a i : String) (ts : ℤ) (rq : ℕ → ℚ) (rz : ℕ → ℤ) :
    ∀ (k : ℕ) (es : List String),
      (azureEntryBlocks s rt a i ts rq rz k es).length = es.length := by
  intro k es
  induction es generalizing k with
  | nil => rfl
  | cons e es ih => simp [azureEntryBlocks, ih]

/-- The shapes of the loop's blocks are the spec-side shapes of the entries, in
order, independently of the draws, the timestamp and the start index. -/
lemma azureEntryBlocks_map_shape (s rt a i : String) (ts : ℤ) (rq : ℕ → ℚ) (rz : ℕ → ℤ) :
    ∀ (k : ℕ) (es : List String),
      (azureEntryBlocks s rt a i ts rq rz k es).map shapeOf
        = es.map (specEntryShape s rt a i) := by
  intro k es
  induction es generalizing k with
  | nil => rfl
  | cons e es ih =>
    simp only [azureEntryBlocks, List.map_cons, shapeOf_metricEntryBlock, ih]

/-- Indexing into the entry loop's output. -/
lemma azureEntryBlocks_getElem? (s rt a i : String) (ts : ℤ) (rq : ℕ → ℚ) (rz : ℕ → ℤ) :
    ∀ (k n : ℕ) (es : List String),
      (azureEntryBlocks s rt a i ts rq rz k es)[n]?
        = (es[n]?).map (metricEntryBlock s rt a i ts (rq (k + n)) (rz (k + n))) := by
  intro k n es
  induction es generalizing k n with
  | nil => simp [azureEntryBlocks]
  | cons e es ih =>
    cases n with
    | zero => simp [azureEntryBlocks]
    | succ m =>
      simp only [azureEntryBlocks, List.getElem?_cons_succ, ih (k + 1) m,
        Nat.add_succ, Nat.succ_add, Nat.add_zero]

/-- Every block the entry loop emits carries one of the five azure entry metric
names. -/
lemma metricEntryBlock_name_mem (s rt a i : String) (ts : ℤ) (dq : ℚ) (dz : ℤ)
    (e : String) :
    (metricEntryBlock s rt a i ts dq dz e).name ∈
      (["azure_sql_avg_cpu_percent", "azure_sql_virtual_core_count",
        "azure_sql_memory_usage_percent", "azure_vm_cpu_percent",
        "azure_unknown_metric"] : List String) := by
  unfold metricEntryBlock metricEntryBlockCore
  split
  · simp
  · split
    · simp
    · split
      · simp
      · split
        · simp
        · simp

/-- No block of the entry loop is named like the exporter-metadata gauges. -/
lemma azureEntryBlocks_filter_name (s rt a i : String) (ts : ℤ) (rq : ℕ → ℚ)
    (rz : ℕ → ℤ) (nm : String)
    (hnm : nm ∉
      (["azure_sql_avg_cpu_percent", "azure_sql_virtual_core_count",
        "azure_sql_memory_usage_percent", "azure_vm_cpu_percent",
        "azure_unknown_metric"] : List String)) :
    ∀ (k : ℕ) (es : List String),
      (azureEntryBlocks s rt a i ts rq rz k es).filter (fun b => b.name = nm) = [] := by
  intro k es
  induction es generalizing k with
  | nil => rfl
  | cons e es ih =>
    simp only [azureEntryBlocks, List.filter_cons]
    rw [if_neg, ih (k + 1)]
    intro hb
    apply hnm
    have hmem := metricEntryBlock_name_mem s rt a i ts (rq k) (rz k) e
    simp only [decide_eq_true_eq] at hb
    rw [← hb]
    exact hmem

/-- Unfolding of the generator in the all-parameters-supplied case. -/
lemma generate_eq_of_truthy
    (subscription target metric interval aggregation : Option String)
    (hs : truthy subscription = true) (ht : truthy target = true)
    (hm : truthy metric = true) (sst ts : ℤ) (r : Draws) :
    generate_prometheus_metrics subscription target metric interval aggregation sst ts r
      = baselineBlocks sst ts r ++
        (azureEntryBlocks (pyStr subscription) (resource_type (pyStr target))
            (pyStr aggregation) (pyStr interval) ts r.metricQ r.metricZ 0
            (pySplit (pyStr metric) ',') ++
          exporterMetaBlocks (pyStr subscription) ts r) := by
  unfold generate_prometheus_metrics
  rw [hs, ht, hm]
  rfl

/-- The baseline section always has five blocks. -/
lemma baselineBlocks_length (sst ts : ℤ) (r : Draws) :
    (baselineBlocks sst ts r).length = 5 := rfl

/-! Claim theorems. -/

/-- C2: for every target string, the `resource_type` label is decided by
first-match-wins substring tests in the order sql managed instance, virtual
machine, storage account, with fallback `"unknown"`; a target containing more
than one substring is classified by the earliest matching rule, and every
target yields one of the four values (no error). -/
theorem resource_type_priority (target : String) :
    (strContains target "Microsoft.Sql/managedInstances" = true →
      resource_type target = "sql_managed_instance") ∧
    (strContains target "Microsoft.Sql/managedInstances" = false →
      strContains target "Microsoft.Compute/virtualMachines" = true →
      resource_type target = "virtual_machine") ∧
    (strContains target "Microsoft.Sql/managedInstances" = false →
      strContains target "Microsoft.Compute/virtualMachines" = false →
      strContains target "Microsoft.Storage/storageAccounts" = true →
      resource_type target = "storage_account") ∧
    (strContains target "Microsoft.Sql/managedInstances" = false →
      strContains target "Microsoft.Compute/virtualMachines" = false →
      strContains target "Microsoft.Storage/storageAccounts" = false →
      resource_type target = "unknown") ∧
    resource_type target ∈
      (["sql_managed_instance", "virtual_machine", "storage_account", "unknown"] :
        List String) := by
  refine ⟨fun h1 => ?_, fun h1 h2 => ?_, fun h1 h2 h3 => ?_, fun h1 h2 h3 => ?_, ?_⟩
  · simp [resource_type, h1]
  · simp [resource_type, h1, h2]
  · simp [resource_type, h1, h2, h3]
  · simp [resource_type, h1, h2, h3]
  · unfold resource_type
    split
    · simp
    · split
      · simp
      · split
        · simp
        · simp

/-- C2 witness: a target containing both the sql and the virtual-machine
substrings is classified by the earlier sql rule. -/
theorem resource_type_priority_witness :
    resource_type
        "s/Microsoft.Sql/managedInstances/a/Microsoft.Compute/virtualMachines/b"
      = "sql_managed_instance" :=
  (resource_type_priority
      "s/Microsoft.Sql/managedInstances/a/Microsoft.Compute/virtualMachines/b").1
    (by decide)

/-- C4: every `/metrics` response starts with the `up` gauge (value 1, current
timestamp) and the `server_start_time` gauge carrying the process-start value,
and no block's metric name starts with "azure_". -/
theorem metrics_route_baseline (sst ts : ℤ) (r : Draws) :
    ((metrics sst ts r).2)[0]?
        = some ⟨"up", "Server status (1=up, 0=down)", "gauge", [⟨[], .int 1, ts⟩]⟩ ∧
    ((metrics sst ts r).2)[1]?
        = some ⟨"server_start_time", "Server start timestamp", "gauge",
                [⟨[], .int sst, ts⟩]⟩ ∧
    ∀ b ∈ (metrics sst ts r).2, strStartsWith b.name "azure_" = false := by
  refine ⟨rfl, rfl, ?_⟩
  intro b hb
  simp only [metrics, generate_prometheus_metrics, truthy, Bool.false_and,
    Bool.and_false, if_neg, Bool.false_eq_true, not_false_eq_true, List.append_nil,
    baselineBlocks, List.mem_cons, List.not_mem_nil, or_false] at hb
  rcases hb with rfl | rfl | rfl | rfl | rfl <;> rfl

/-- C4 witness: the baseline facts at a concrete call. -/
theorem metrics_route_baseline_witness :
    ((metrics 0 3 someDraws).2)[0]?
        = some ⟨"up", "Server status (1=up, 0=down)", "gauge", [⟨[], .int 1, 3⟩]⟩ ∧
    ∀ b ∈ (metrics 0 3 someDraws).2, strStartsWith b.name "azure_" = false :=
  ⟨(metrics_route_baseline 0 3 someDraws).1,
   (metrics_route_baseline 0 3 someDraws).2.2⟩

/-- C5 counterexample: a parameter supplied as the empty string IS counted by
`parameter_count` (the code counts parameters that are not None), contradicting
the claim that only non-empty parameters are counted. -/
theorem debug_params_count_counterexample :
    (debug_params (some "") none none none none 0).parameter_count = 1 ∧
    countNonEmpty [some "", none, none, none, none] = 0 ∧
    (debug_params (some "") none none none none 0).parameter_count ≠
      countNonEmpty [some "", none, none, none, none] := by
  refine ⟨rfl, rfl, ?_⟩
  decide

/-- C5 amended: `parameter_count` equals the number of the five parameters that
are present (supplied at all, the empty string included), while
`required_params_present` is true exactly when subscription, target and metric
are all non-empty; for `subscription=a&target=b` the count is 2 and
`required_params_present` is false. -/
theorem debug_params_count_amended
    (subscription target metric interval aggregation : Option String) (ts : ℤ) :
    (debug_params subscription target metric interval aggregation ts).parameter_count
      = countPresent [subscription, target, metric, interval, aggregation] ∧
    (debug_params subscription target metric interval aggregation
        ts).required_params_present
      = (truthy subscription && truthy target && truthy metric) ∧
    (debug_params (some "a") (some "b") none none none ts).parameter_count = 2 ∧
    (debug_params (some "a") (some "b") none none none ts).required_params_present
      = false := by
  refine ⟨?_, rfl, rfl, rfl⟩
  simp [debug_params, countPresent, List.countP_eq_length_filter]

/-- C7: the server-start timestamp is an immutable process-lifetime value; the
`server_start_time` block of every generator response reports exactly that
value, so any two responses of one process agree on it. -/
theorem server_start_time_constant
    (s₁ t₁ m₁ i₁ a₁ s₂ t₂ m₂ i₂ a₂ : Option String)
    (sst ts₁ ts₂ : ℤ) (r₁ r₂ : Draws) :
    ((generate_prometheus_metrics s₁ t₁ m₁ i₁ a₁ sst ts₁ r₁)[1]?).map
        (fun b => (b.name, b.samples.map Sample.value))
      = some ("server_start_time", [Value.int sst]) ∧
    ((generate_prometheus_metrics s₁ t₁ m₁ i₁ a₁ sst ts₁ r₁)[1]?).map
        (fun b => (b.name, b.samples.map Sample.value))
      = ((generate_prometheus_metrics s₂ t₂ m₂ i₂ a₂ sst ts₂ r₂)[1]?).map
          (fun b => (b.name, b.samples.map Sample.value)) :=
  ⟨rfl, rfl⟩

/-- C8: on `/probe/metrics/resource`, an omitted `interval` defaults to "PT1M"
and an omitted `aggregation` to "average"; all parameters are optional and the
handler always answers with HTTP status 200. -/
theorem azure_metrics_defaults
    (subscription target metric name metricNamespace : Option String)
    (sst ts : ℤ) (r : Draws) :
    azure_metrics subscription target metric none none name metricNamespace sst ts r
      = azure_metrics subscription target metric (some "PT1M") (some "average")
          name metricNamespace sst ts r ∧
    ∀ qinterval qaggregation : Option String,
      (azure_metrics subscription target metric qinterval qaggregation
          name metricNamespace sst ts r).1 = 200 := by
  refine ⟨rfl, ?_⟩
  intro qi qa
  unfold azure_metrics
  split
  · rfl
  · rfl

/-- C3: whenever subscription, target or metric is absent or empty, the
`/probe/metrics/resource` handler bypasses the generator and returns, with
status 200, exactly the two-block error payload — an `azure_exporter_error`
gauge of value 1 whose labels say which required parameters were provided, and
an `azure_exporter_request_info` gauge of value 0 — and no block of the
response is named `azure_exporter_scrape_success`. -/
theorem azure_metrics_error_path
    (subscription target metric qinterval qaggregation name metricNamespace :
      Option String)
    (sst ts : ℤ) (r : Draws)
    (h : ¬(truthy subscription = true ∧ truthy target = true ∧ truthy metric = true)) :
    azure_metrics subscription target metric qinterval qaggregation name
        metricNamespace sst ts r
      = (200,
          [{ name := "azure_exporter_error", help := "Error in Azure exporter",
             mtype := "gauge",
             samples := [⟨[("reason", "missing_required_parameters"),
                           ("subscription", pyOrElse subscription "missing"),
                           ("target_provided", pyBoolStr (truthy target)),
                           ("metric_provided", pyBoolStr (truthy metric))],
                          .int 1, ts⟩] },
           { name := "azure_exporter_request_info",
             help := "Information about the request", mtype := "gauge",
             samples := [⟨[("subscription", pyOrElse subscription "none"),
                           ("has_target", pyBoolStr (truthy target)),
                           ("has_metric", pyBoolStr (truthy metric)),
                           ("interval", qinterval.getD "PT1M"),
                           ("aggregation", qaggregation.getD "average")],
                          .int 0, ts⟩] }]) ∧
    ∀ b ∈ (azure_metrics subscription target metric qinterval qaggregation name
        metricNamespace sst ts r).2,
      b.name ≠ "azure_exporter_scrape_success" := by
  have hg : (truthy subscription && truthy target && truthy metric) = false := by
    cases hs : truthy subscription <;> cases htr : truthy target <;>
      cases hm : truthy metric <;> simp_all
  constructor
  · unfold azure_metrics
    rw [hg]
    rfl
  · intro b hb
    unfold azure_metrics at hb
    rw [hg] at hb
    simp only [Bool.false_eq_true, if_false, errorBlocks, List.mem_cons,
      List.not_mem_nil, or_false] at hb
    rcases hb with rfl | rfl <;> simp

/-- C3 witness: with target missing and metric empty, the handler returns the
fixed error payload with status 200 and no scrape-success block. -/
theorem azure_metrics_error_path_witness :
    ¬(truthy (some "test") = true ∧ truthy none = true ∧ truthy (some "") = true) ∧
    (azure_metrics (some "test") none (some "") none none none none 0 7 someDraws
      = (200,
          [{ name := "azure_exporter_error", help := "Error in Azure exporter",
             mtype := "gauge",
             samples := [⟨[("reason", "missing_required_parameters"),
                           ("subscription", pyOrElse (some "test") "missing"),
                           ("target_provided", pyBoolStr (truthy (none : Option String))),
                           ("metric_provided", pyBoolStr (truthy (some "")))],
                          .int 1, 7⟩] },
           { name := "azure_exporter_request_info",
             help := "Information about the request", mtype := "gauge",
             samples := [⟨[("subscription", pyOrElse (some "test") "none"),
                           ("has_target", pyBoolStr (truthy (none : Option String))),
                           ("has_metric", pyBoolStr (truthy (some ""))),
                           ("interval", (none : Option String).getD "PT1M"),
                           ("aggregation", (none : Option String).getD "average")],
                          .int 0, 7⟩] }]) ∧
      ∀ b ∈ (azure_metrics (some "test") none (some "") none none none none 0 7
          someDraws).2,
        b.name ≠ "azure_exporter_scrape_success") :=
  ⟨by decide,
   azure_metrics_error_path (some "test") none (some "") none none none none 0 7
     someDraws (by decide)⟩

/-- C9: the structural shape of the generator's output — the block sequence
with metric names, help texts, types, and label sets in order — does not depend
on the random draws or the request timestamp; only sample values and
timestamps may differ between two calls with identical parameters. -/
theorem generator_shape_deterministic
    (subscription target metric interval aggregation : Option String)
    (sst ts₁ ts₂ : ℤ) (r₁ r₂ : Draws) :
    (generate_prometheus_metrics subscription target metric interval aggregation
        sst ts₁ r₁).map shapeOf
      = (generate_prometheus_metrics subscription target metric interval aggregation
          sst ts₂ r₂).map shapeOf := by
  unfold generate_prometheus_metrics
  cases hg : (truthy subscription && truthy target && truthy metric) with
  | false => simp [baselineBlocks, shapeOf]
  | true =>
    simp only [show ((true : Bool) = true) = True by simp, if_true, List.map_append]
    rw [azureEntryBlocks_map_shape, azureEntryBlocks_map_shape]
    simp [baselineBlocks, exporterMetaBlocks, shapeOf]

/-- C1: with all required parameters supplied, the metric parameter is split on
commas and each entry, in input order, yields exactly the block selected by the
ordered rules — the three exact matches first, then case-insensitive "cpu"
containment (metric_name label carrying the stripped entry verbatim), else the
unknown-metric fallback. -/
theorem azure_metric_classification
    (subscription target metric interval aggregation : Option String)
    (hs : truthy subscription = true) (ht : truthy target = true)
    (hm : truthy metric = true) (sst ts : ℤ) (r : Draws) :
    (((generate_prometheus_metrics subscription target metric interval aggregation
            sst ts r).drop 5).take (pySplit (pyStr metric) ',').length).map shapeOf
      = (pySplit (pyStr metric) ',').map
          (specEntryShape (pyStr subscription) (resource_type (pyStr target))
            (pyStr aggregation) (pyStr interval)) := by
  rw [generate_eq_of_truthy subscription target metric interval aggregation hs ht hm
    sst ts r]
  rw [List.drop_left' (baselineBlocks_length sst ts r)]
  rw [List.take_left' (azureEntryBlocks_length _ _ _ _ _ _ _ _ _)]
  exact azureEntryBlocks_map_shape _ _ _ _ _ _ _ _ _

/-- C1 witness: a three-way metric list exercising the cpu-containment rule,
an exact match with surrounding whitespace, and the unknown fallback. -/
theorem azure_metric_classification_witness :
    truthy (some "S") = true ∧ truthy (some "T") = true ∧
    truthy (some "FooCPUBar, avg_cpu_percent ,x") = true ∧
    (((generate_prometheus_metrics (some "S") (some "T")
            (some "FooCPUBar, avg_cpu_percent ,x") (some "PT1M") (some "average")
            0 0 someDraws).drop 5).take
        (pySplit (pyStr (some "FooCPUBar, avg_cpu_percent ,x")) ',').length).map shapeOf
      = (pySplit (pyStr (some "FooCPUBar, avg_cpu_percent ,x")) ',').map
          (specEntryShape (pyStr (some "S")) (resource_type (pyStr (some "T")))
            (pyStr (some "average")) (pyStr (some "PT1M"))) :=
  ⟨rfl, rfl, rfl,
   azure_metric_classification (some "S") (some "T")
     (some "FooCPUBar, avg_cpu_percent ,x") (some "PT1M") (some "average")
     rfl rfl rfl 0 0 someDraws⟩

/-- C6: with all required parameters supplied, the output ends, after the five
baseline blocks and the one block per metric entry, with exactly the two
exporter-metadata gauges labelled only by subscription —
`azure_exporter_scrape_duration_seconds` carrying the fresh duration draw
printed with 3 decimals, then `azure_exporter_scrape_success` with constant 1 —
and each of the two appears exactly once in the whole response. -/
theorem exporter_metadata_trailing
    (subscription target metric interval aggregation : Option String)
    (hs : truthy subscription = true) (ht : truthy target = true)
    (hm : truthy metric = true) (sst ts : ℤ) (r : Draws) :
    (generate_prometheus_metrics subscription target metric interval aggregation
          sst ts r).drop (5 + (pySplit (pyStr metric) ',').length)
      = [⟨"azure_exporter_scrape_duration_seconds", "Time spent scraping Azure API",
          "gauge", [⟨[("subscription", pyStr subscription)], .dec r.durQ 3, ts⟩]⟩,
         ⟨"azure_exporter_scrape_success",
          "Whether the Azure API scrape was successful", "gauge",
          [⟨[("subscription", pyStr subscription)], .int 1, ts⟩]⟩] ∧
    ((generate_prometheus_metrics subscription target metric interval aggregation
          sst ts r).filter
        (fun b => b.name = "azure_exporter_scrape_duration_seconds")).length = 1 ∧
    ((generate_prometheus_metrics subscription target metric interval aggregation
          sst ts r).filter
        (fun b => b.name = "azure_exporter_scrape_success")).length = 1 ∧
    (generate_prometheus_metrics subscription target metric interval aggregation
          sst ts r).length
      = 5 + (pySplit (pyStr metric) ',').length + 2 := by
  rw [generate_eq_of_truthy subscription target metric interval aggregation hs ht hm
    sst ts r]
  refine ⟨?_, ?_, ?_, ?_⟩
  · rw [← List.append_assoc]
    rw [List.drop_left' (by
      simp [List.length_append, baselineBlocks_length, azureEntryBlocks_length])]
    rfl
  · rw [List.filter_append, List.filter_append,
      azureEntryBlocks_filter_name (pyStr subscription) (resource_type (pyStr target))
        (pyStr aggregation) (pyStr interval) ts r.metricQ r.metricZ
        "azure_exporter_scrape_duration_seconds" (by decide) 0
        (pySplit (pyStr metric) ',')]
    rfl
  · rw [List.filter_append, List.filter_append,
      azureEntryBlocks_filter_name (pyStr subscription) (resource_type (pyStr target))
        (pyStr aggregation) (pyStr interval) ts r.metricQ r.metricZ
        "azure_exporter_scrape_success" (by decide) 0
        (pySplit (pyStr metric) ',')]
    rfl
  · simp only [List.length_append, baselineBlocks_length, azureEntryBlocks_length]
    simp [exporterMetaBlocks]
    omega

/-- C6 witness: the trailing pair at a concrete two-entry request. -/
theorem exporter_metadata_trailing_witness :
    truthy (some "S") = true ∧ truthy (some "T") = true ∧
    truthy (some "a,b") = true ∧
    (generate_prometheus_metrics (some "S") (some "T") (some "a,b") (some "PT1M")
          (some "average") 0 3 someDraws).drop
        (5 + (pySplit (pyStr (some "a,b")) ',').length)
      = [⟨"azure_exporter_scrape_duration_seconds", "Time spent scraping Azure API",
          "gauge", [⟨[("subscription", pyStr (some "S"))], .dec someDraws.durQ 3, 3⟩]⟩,
         ⟨"azure_exporter_scrape_success",
          "Whether the Azure API scrape was successful", "gauge",
          [⟨[("subscription", pyStr (some "S"))], .int 1, 3⟩]⟩] :=
  ⟨rfl, rfl, rfl,
   (exporter_metadata_trailing (some "S") (some "T") (some "a,b") (some "PT1M")
      (some "average") rfl rfl rfl 0 3 someDraws).1⟩

/-- C10: an entry of the comma-split metric list that strips to the empty
string is not skipped: it produces its own `azure_unknown_metric` block with
`metric_name=""` at its position in the output. -/
theorem empty_entry_not_skipped
    (subscription target metric interval aggregation : Option String)
    (hs : truthy subscription = true) (ht : truthy target = true)
    (hm : truthy metric = true) (sst ts : ℤ) (r : Draws) (n : ℕ) (e : String)
    (he : (pySplit (pyStr metric) ',')[n]? = some e) (hempty : pyStrip e = "") :
    (generate_prometheus_metrics subscription target metric interval aggregation
        sst ts r)[5 + n]?
      = some { name := "azure_unknown_metric",
               help := "Unknown metric  from Azure API", mtype := "gauge",
               samples := [⟨azureNameLabels (pyStr subscription)
                              (resource_type (pyStr target)) "" (pyStr aggregation)
                              (pyStr interval), .dec (r.metricQ n) 2, ts⟩] } := by
  have hn : n < (pySplit (pyStr metric) ',').length := by
    rcases List.getElem?_eq_some_iff.mp he with ⟨h, _⟩
    exact h
  rw [generate_eq_of_truthy subscription target metric interval aggregation hs ht hm
    sst ts r]
  rw [List.getElem?_append_right (by rw [baselineBlocks_length]; omega)]
  rw [baselineBlocks_length]
  rw [show 5 + n - 5 = n from by omega]
  rw [List.getElem?_append_left (by
    rw [azureEntryBlocks_length]
    exact hn)]
  rw [azureEntryBlocks_getElem?]
  rw [he]
  simp only [Option.map, metricEntryBlock, hempty, Nat.zero_add]
  rfl

/-- C10 witness: a trailing comma yields an empty second entry, which produces
an unknown-metric block with empty metric_name at position 6 of the output. -/
theorem empty_entry_not_skipped_witness :
    truthy (some "x,") = true ∧ (pySplit (pyStr (some "x,")) ',')[1]? = some "" ∧
    pyStrip "" = "" ∧
    (generate_prometheus_metrics (some "S") (some "T") (some "x,") (some "PT1M")
        (some "average") 0 3 someDraws)[5 + 1]?
      = some { name := "azure_unknown_metric",
               help := "Unknown metric  from Azure API", mtype := "gauge",
               samples := [⟨azureNameLabels (pyStr (some "S"))
                              (resource_type (pyStr (some "T"))) ""
                              (pyStr (some "average")) (pyStr (some "PT1M")),
                            .dec (someDraws.metricQ 1) 2, 3⟩] } :=
  ⟨rfl, rfl, rfl,
   empty_entry_not_skipped (some "S") (some "T") (some "x,") (some "PT1M")
     (some "average") rfl rfl rfl 0 3 someDraws 1 "" rfl rfl⟩

end MetricsServer
